import Mathlib

/-!
Verification of the cpal audio-output backend (`src/devices/builtin/cpal.rs`)
of the muzak repository: sample-format mappings, stream-config construction,
interleaving, ring-buffer sizing, the frame-submission loop, and the small
query functions on devices and streams.

Machine integers (`u16`, `u32`, `usize`) are modelled as `Nat`; all arithmetic
the modelled code performs stays far below any word size, so no wrap-around
is modelled. Fallible Rust functions returning `Result` are modelled with
`Except`; `Option`-like partiality (out-of-bounds indexing, which panics in
Rust, and potentially non-terminating loops) is modelled with `Option`,
where `none` stands for a panic or for exhausted fuel.
-/

namespace Muzak

/-- The native cpal sample-format tags (`cpal::SampleFormat`): the ten
variants the crate defines. -/
inductive CpalSampleFormat where
  | I8 | I16 | I32 | I64
  | U8 | U16 | U32 | U64
  | F32 | F64
  deriving DecidableEq

/-- Modelled from the spec: the canonical sample encodings
(`crate::devices::format::SampleFormat`; `src/devices/format.rs` is not in
the source snapshot). The spec names the eight canonical PCM encodings plus
an explicit "unsupported" sentinel, and `cpal.rs` matches on exactly these
nine variant names. -/
inductive SampleFormat where
  | Signed8 | Signed16 | Signed32
  | Unsigned8 | Unsigned16 | Unsigned32
  | Float32 | Float64
  | Unsupported
  deriving DecidableEq

/-- Modelled from the spec: channel specification
(`crate::devices::format::ChannelSpec`, file not in the snapshot). The spec
says the channel specification is "currently always a fixed count"; the
match in `create_stream` has a `Count` arm and a wildcard arm that panics,
so a second, opaque variant stands for all non-`Count` forms. -/
inductive ChannelSpec where
  | Count (v : Nat)
  | other
  deriving DecidableEq

/-- Modelled from the spec: buffer-size policy
(`crate::devices::format::BufferSize`, file not in the snapshot): the spec
names a fixed/range/unknown policy, and `cpal.rs` constructs the `Range`
and `Unknown` forms. -/
inductive BufferSize where
  | Fixed (n : Nat)
  | Range (lo hi : Nat)
  | Unknown
  deriving DecidableEq

/-- Modelled from the spec: `crate::devices::format::FormatInfo` (file not
in the snapshot): backend identity tag, sample encoding, sample rate,
buffer-size policy and channel specification, exactly the five fields
`cpal.rs` reads and constructs. -/
structure FormatInfo where
  originating_provider : String
  sample_type : SampleFormat
  sample_rate : Nat
  buffer_size : BufferSize
  channels : ChannelSpec
  deriving DecidableEq

/-- Modelled from the spec: `crate::devices::format::SupportedFormat`
(file not in the snapshot): a capability descriptor with a sample-rate
range, as constructed field by field in `get_supported_formats`. -/
structure SupportedFormat where
  originating_provider : String
  sample_type : SampleFormat
  sample_rate_start : Nat
  sample_rate_end : Nat
  buffer_size : BufferSize
  channels : ChannelSpec
  deriving DecidableEq

/-- Model of `cpal::BufferSize` as used in `cpal_config_from_info`: only the
`Default` variant is ever produced; `Fixed` exists in the crate. -/
inductive CpalBufferSize where
  | Default
  | Fixed (n : Nat)
  deriving DecidableEq

/-- Model of `cpal::StreamConfig`: channel count, sample rate and buffer size. -/
structure StreamConfig where
  channels : Nat
  sample_rate : Nat
  buffer_size : CpalBufferSize
  deriving DecidableEq

/-- Function `format_from_cpal` (cpal.rs lines 85-97): native tag to canonical tag;
the wildcard arm yields the `Unsupported` sentinel. -/
def format_from_cpal (format : CpalSampleFormat) : SampleFormat :=
  match format with
  | .I8 => .Signed8
  | .I16 => .Signed16
  | .I32 => .Signed32
  | .U8 => .Unsigned8
  | .U16 => .Unsigned16
  | .U32 => .Unsigned32
  | .F32 => .Float32
  | .F64 => .Float64
  | _ => .Unsupported

/-- Function `cpal_from_format` (cpal.rs lines 99-111): canonical tag to native tag;
the wildcard arm ("should be impossible") yields `U16`. -/
def cpal_from_format (format : SampleFormat) : CpalSampleFormat :=
  match format with
  | .Signed8 => .I8
  | .Signed16 => .I16
  | .Signed32 => .I32
  | .Unsigned8 => .U8
  | .Unsigned16 => .U16
  | .Unsigned32 => .U32
  | .Float32 => .F32
  | .Float64 => .F64
  | _ => .U16

/-- Function `cpal_config_from_info` (cpal.rs lines 113-123): rejects a foreign
provider tag, otherwise builds a native config with 2 channels, the
format's sample rate, and the default buffer size. -/
def cpal_config_from_info (format : FormatInfo) : Except Unit StreamConfig :=
  if format.originating_provider ≠ "cpal" then
    .error ()
  else
    .ok { channels := 2
          sample_rate := format.sample_rate
          buffer_size := .Default }

/-- One indexing step of the `interleave` loop body
(`samples[i % length][i / length]`); `none` models the Rust panic on an
out-of-bounds index. -/
def indexSample {α : Type} (samples : List (List α)) (length i : Nat) : Option α :=
  (samples[i % length]?).bind (fun ch => ch[i / length]?)

/-- The `for i in 0..total { result.push(samples[i % length][i / length]) }`
loop of `interleave`, over an explicit list of loop indices. -/
def pushLoop {α : Type} (samples : List (List α)) (length : Nat) :
    List Nat → Option (List α)
  | [] => some []
  | i :: rest =>
    (indexSample samples length i).bind
      (fun x => (pushLoop samples length rest).map (fun r => x :: r))

/-- Function `interleave` (cpal.rs lines 125-141): empty input yields an empty
vector; otherwise the push loop runs for
`samples.len() * samples[0].len()` indices. -/
def interleave {α : Type} (samples : List (List α)) : Option (List α) :=
  if samples.isEmpty then some []
  else pushLoop samples samples.length
    (List.range (samples.length * (samples.headD []).length))

/-- Model of `OpenError` (devices/errors.rs, not in the snapshot): exactly the three
constructors `open_device`/`create_stream` produce in `cpal.rs`. -/
inductive OpenError where
  | InvalidConfigProvider
  | InvalidSampleFormat
  | Unknown
  deriving DecidableEq

/-- Model of `CloseError` (devices/errors.rs, not in the snapshot): reserved; no
constructor is ever produced by `cpal.rs`, so one opaque variant stands for
the whole type. -/
inductive CloseError where
  | reserved
  deriving DecidableEq

/-- Model of `InfoError` (devices/errors.rs, not in the snapshot): `cpal.rs` only
ever produces `InfoError::Unknown`. -/
inductive InfoError where
  | Unknown
  deriving DecidableEq

/-- Model of `FindError` (devices/errors.rs, not in the snapshot): the two
constructors `CpalProvider` produces. -/
inductive FindError where
  | DeviceDoesNotExist
  | Unknown
  deriving DecidableEq

/-- The resources a successful `create_stream` packs into a `CpalStream`:
the ring-buffer producer (abstracted to the buffer's capacity), the opaque
native stream, and the stored `FormatInfo`. -/
structure StreamModel where
  ringCapacity : Nat
  format : FormatInfo
  deriving DecidableEq

/-- Observable side effects of an `open_device` call: capacities of the ring
buffers allocated by `SpscRb::new`, and how many times the native
`build_output_stream` was invoked. -/
structure OpenTrace where
  ringAllocs : List Nat
  buildAttempts : Nat
  deriving DecidableEq

/-- Method `CpalDevice::create_stream` (cpal.rs lines 144-179). The native
`build_output_stream` call is external and fallible; `buildOk` says whether
it succeeds. `none` models the `panic!("non cpal device")` on a non-`Count`
channel specification. The ring buffer is allocated before the native
build, so its allocation is traced on both build outcomes. -/
def create_stream (format : FormatInfo) (buildOk : Bool) :
    Option (OpenTrace × Except OpenError StreamModel) :=
  match cpal_config_from_info format with
  | .error _ => some (⟨[], 0⟩, .error .InvalidConfigProvider)
  | .ok config =>
    match format.channels with
    | .Count v =>
      let buffer_size := ((200 * config.sample_rate) / 1000) * v
      if buildOk then
        some (⟨[buffer_size], 1⟩,
          .ok { ringCapacity := buffer_size, format := format })
      else
        some (⟨[buffer_size], 1⟩, .error .Unknown)
    | _ => none

/-- Method `CpalDevice::open_device` (cpal.rs lines 182-198): a foreign provider
tag is rejected before anything is constructed; otherwise construction is
dispatched on the sample encoding, with the `Unsupported` wildcard arm
rejected as `InvalidSampleFormat`. All eight concrete encodings share the
single `create_stream` path. -/
def open_device (format : FormatInfo) (buildOk : Bool) :
    Option (OpenTrace × Except OpenError StreamModel) :=
  if format.originating_provider ≠ "cpal" then
    some (⟨[], 0⟩, .error .InvalidConfigProvider)
  else
    match format.sample_type with
    | .Unsupported => some (⟨[], 0⟩, .error .InvalidSampleFormat)
    | _ => create_stream format buildOk

/-- Method `CpalStream::close_stream` (cpal.rs lines 286-288): the body is
`Ok(())`; the stream state is untouched. -/
def close_stream (s : StreamModel) : Except CloseError Unit × StreamModel :=
  (.ok (), s)

/-- Runtime condition of the submitting side of a stream: whether a
`submit_frame` call is currently blocked on a full ring buffer. -/
structure StreamRuntime where
  blockedOnFullBuffer : Bool
  deriving DecidableEq

/-- Method `CpalStream::needs_input` (cpal.rs lines 290-293): the body is the
constant `true`, whatever the runtime condition of the stream. -/
def needs_input (_s : StreamRuntime) : Bool :=
  true

/-- One native output configuration as reported by
`cpal::SupportedStreamConfigRange`: the fields `get_supported_formats`
reads. -/
structure NativeConfig where
  sample_format : CpalSampleFormat
  min_sample_rate : Nat
  max_sample_rate : Nat
  buffer_range : Option (Nat × Nat)
  channels : Nat
  deriving DecidableEq

/-- The per-config conversion inside `get_supported_formats`
(cpal.rs lines 209-224). -/
def supportedFromConfig (c : NativeConfig) : SupportedFormat :=
  { originating_provider := "cpal"
    sample_type := format_from_cpal c.sample_format
    sample_rate_start := c.min_sample_rate
    sample_rate_end := c.max_sample_rate
    buffer_size := match c.buffer_range with
      | some (mn, mx) => .Range mn mx
      | none => .Unknown
    channels := .Count c.channels }

/-- Method `CpalDevice::get_supported_formats` (cpal.rs lines 200-226), given the
list of configs the native enumeration yields: drop every `I64`/`U64`
config, then convert each survivor. -/
def get_supported_formats (configs : List NativeConfig) : List SupportedFormat :=
  (configs.filter (fun c =>
    c.sample_format ≠ CpalSampleFormat.I64 ∧
    c.sample_format ≠ CpalSampleFormat.U64)).map supportedFromConfig

/-- A native cpal device as the modelled code observes it: `name()` is
fallible, modelled as `Option String` with `none` for the error case. -/
structure CpalDeviceM where
  name : Option String
  deriving DecidableEq

/-- Method `CpalDevice::get_name` (cpal.rs lines 248-250). -/
def get_name (d : CpalDeviceM) : Except InfoError String :=
  match d.name with
  | some s => .ok s
  | none => .error .Unknown

/-- Method `CpalDevice::get_uid` (cpal.rs lines 252-254). -/
def get_uid (d : CpalDeviceM) : Except InfoError String :=
  match d.name with
  | some s => .ok s
  | none => .error .Unknown

/-- The comparison `get_device_by_uid` applies to each enumerated device
(cpal.rs line 64): `dev.name().unwrap_or("NULL".into()) == *id`. -/
def uidMatches (dev : CpalDeviceM) (id : String) : Bool :=
  (dev.name.getD "NULL") = id

/-- Method `CpalProvider::get_device_by_uid` (cpal.rs lines 59-67), given the
enumerated device list: linear search by `uidMatches`. -/
def get_device_by_uid (devices : List CpalDeviceM) (id : String) :
    Except FindError CpalDeviceM :=
  match devices.find? (fun dev => uidMatches dev id) with
  | some dev => .ok dev
  | none => .error .DeviceDoesNotExist

/-- Modelled from the spec: `T::inner` (`GetInnerSamples`,
`src/media/playback.rs` is not in the snapshot) converts each channel's
samples from the canonical numeric domain into the stream's native sample
type, elementwise ("direct numeric narrowing/widening; no dithering"), so
channel count and per-channel lengths are preserved. -/
def innerSamples {β α : Type} (conv : β → α) (frame : List (List β)) :
    List (List α) :=
  frame.map (fun ch => ch.map conv)

/-- Model of `rb::Producer::write_blocking` on a slice, given the free space the
consumer has made available once the call stops blocking (at least one
element, unless the slice is empty): returns `none` on an empty slice and
otherwise the number of elements written, `min (slice length) free`. -/
def write_blocking {α : Type} (slice : List α) (free : Nat) : Option Nat :=
  if slice.isEmpty then none
  else some (min slice.length free)

/-- The `while let Some(written) = write_blocking(slice)` loop of
`submit_frame` (cpal.rs lines 279-281). `avail k` is the free space the
consumer has provided when the `k`-th write call unblocks; the result is
the list of chunks committed to the ring buffer, in order. `fuel` bounds
the iteration count; `none` models a loop that has not yet terminated. -/
def submitWrites {α : Type} (avail : Nat → Nat) :
    Nat → Nat → List α → Option (List (List α))
  | 0, _, slice => if slice.isEmpty then some [] else none
  | fuel + 1, k, slice =>
    match write_blocking slice (avail k) with
    | none => some []
    | some written =>
      (submitWrites avail fuel (k + 1) (slice.drop written)).map
        (fun rest => slice.take written :: rest)

/-- Method `CpalStream::submit_frame` (cpal.rs lines 274-284): convert the
per-channel samples, interleave them, then loop writing into the ring
buffer until the whole interleaved sequence is committed. The result is
the sequence of chunks the ring buffer received. -/
def submit_frame {β α : Type} (conv : β → α) (avail : Nat → Nat) (fuel : Nat)
    (frame : List (List β)) : Option (List (List α)) :=
  (interleave (innerSamples conv frame)).bind
    (fun interleaved => submitWrites avail fuel 0 interleaved)

/-! Helper lemmas -/

lemma pushLoop_eq_map {α : Type} (samples : List (List α)) (length : Nat)
    (g : Nat → α) (l : List Nat)
    (h : ∀ i ∈ l, indexSample samples length i = some (g i)) :
    pushLoop samples length l = some (l.map g) := by
  induction l with
  | nil => rfl
  | cons a t ih =>
    have ha := h a (List.mem_cons_self a t)
    have ht := ih (fun i hi => h i (List.mem_cons_of_mem a hi))
    simp [pushLoop, ha, ht]

lemma indexSample_of_uniform {α : Type} [Inhabited α]
    (samples : List (List α)) (N L i : Nat)
    (hN : samples.length = N) (hNpos : 0 < N)
    (hL : ∀ ch ∈ samples, ch.length = L) (hi : i < N * L) :
    indexSample samples N i =
      some ((samples.getD (i % N) []).getD (i / N) default) := by
  have hmod : i % N < samples.length := by
    rw [hN]
    exact Nat.mod_lt i hNpos
  have hch : samples[i % N] ∈ samples := List.getElem_mem hmod
  have hdiv : i / N < (samples[i % N]).length := by
    rw [hL _ hch]
    exact (Nat.div_lt_iff_lt_mul hNpos).mpr (Nat.mul_comm N L ▸ hi)
  rw [indexSample, List.getElem?_eq_getElem hmod, Option.some_bind,
    List.getElem?_eq_getElem hdiv]
  have h1 : samples.getD (i % N) [] = samples[i % N] := by
    simp [List.getD_eq_getElem?_getD, List.getElem?_eq_getElem hmod]
  have h2 : (samples[i % N]).getD (i / N) default = (samples[i % N])[i / N] := by
    simp [List.getD_eq_getElem?_getD, List.getElem?_eq_getElem hdiv]
  rw [h1, h2]

lemma interleave_of_uniform {α : Type} [Inhabited α]
    (samples : List (List α)) (N L : Nat)
    (hne : samples ≠ []) (hN : samples.length = N)
    (hL : ∀ ch ∈ samples, ch.length = L) :
    interleave samples =
      some ((List.range (N * L)).map
        (fun i => (samples.getD (i % N) []).getD (i / N) default)) := by
  have hNpos : 0 < N := by
    cases samples with
    | nil => exact absurd rfl hne
    | cons a t => simp [← hN]
  have hhead : (samples.headD []).length = L := by
    cases samples with
    | nil => exact absurd rfl hne
    | cons a t => exact hL a (List.mem_cons_self a t)
  have hempty : samples.isEmpty = false := by
    simp [List.isEmpty_iff, hne]
  rw [interleave, hempty]
  simp only [Bool.false_eq_true, if_false, hhead, hN]
  exact pushLoop_eq_map samples N _ (List.range (N * L))
    (fun i hi => indexSample_of_uniform samples N L i hN hNpos hL
      (List.mem_range.mp hi))

lemma submitWrites_complete {α : Type} (avail : Nat → Nat)
    (hpos : ∀ k, 1 ≤ avail k) :
    ∀ (fuel k : Nat) (slice : List α), slice.length ≤ fuel →
      ∃ chunks, submitWrites avail fuel k slice = some chunks ∧
        chunks.flatten = slice := by
  intro fuel
  induction fuel with
  | zero =>
    intro k slice h
    have : slice = [] := List.eq_nil_of_length_eq_zero (Nat.le_zero.mp h)
    subst this
    exact ⟨[], rfl, rfl⟩
  | succ n ih =>
    intro k slice h
    by_cases hs : slice = []
    · subst hs
      exact ⟨[], rfl, rfl⟩
    · have hlen : 0 < slice.length := List.length_pos.mpr hs
      have hempty : slice.isEmpty = false := by simp [List.isEmpty_iff, hs]
      have hdrop : (slice.drop (min slice.length (avail k))).length ≤ n := by
        rw [List.length_drop]
        have := hpos k
        omega
      obtain ⟨chunks, hc, hj⟩ := ih (k + 1) (slice.drop (min slice.length (avail k))) hdrop
      refine ⟨slice.take (min slice.length (avail k)) :: chunks, ?_, ?_⟩
      · simp only [submitWrites, write_blocking, hempty, Bool.false_eq_true,
          if_false, hc, Option.map_some']
      · rw [List.flatten_cons, hj, List.take_append_drop]

lemma innerSamples_length {β α : Type} (conv : β → α) (frame : List (List β)) :
    (innerSamples conv frame).length = frame.length :=
  List.length_map frame _

lemma innerSamples_uniform {β α : Type} (conv : β → α) (frame : List (List β))
    (L : Nat) (hL : ∀ ch ∈ frame, ch.length = L) :
    ∀ ch ∈ innerSamples conv frame, ch.length = L := by
  intro ch hch
  obtain ⟨c, hc, rfl⟩ := List.mem_map.mp hch
  rw [List.length_map]
  exact hL c hc

lemma open_device_trace (format : FormatInfo) (buildOk : Bool) (C : Nat)
    (hp : format.originating_provider = "cpal")
    (hc : format.channels = ChannelSpec.Count C)
    (hs : format.sample_type ≠ SampleFormat.Unsupported) :
    open_device format buildOk =
      some ({ ringAllocs := [((200 * format.sample_rate) / 1000) * C],
              buildAttempts := 1 },
        if buildOk then
          .ok { ringCapacity := ((200 * format.sample_rate) / 1000) * C,
                format := format }
        else .error .Unknown) := by
  obtain ⟨prov, st, rate, bs, ch⟩ := format
  simp only at hp hc hs
  subst hp
  subst hc
  cases st <;>
    first
      | exact absurd rfl hs
      | (cases buildOk <;>
          simp [open_device, create_stream, cpal_config_from_info])

/-! Claim theorems -/

/-- C1: for every non-empty list of N per-channel arrays each of length L,
`interleave` succeeds with a sequence of length N×L whose element at index
i is element (i div N) of channel (i mod N); interleaving zero channels
yields an empty sequence; and on the 2-channel frame with channel arrays
[1,2,3] and [4,5,6] it yields exactly [1,4,2,5,3,6]. -/
theorem interleave_law {α : Type} [Inhabited α] (N L : Nat)
    (samples : List (List α)) (hne : samples ≠ [])
    (hN : samples.length = N) (hL : ∀ ch ∈ samples, ch.length = L) :
    (∃ out, interleave samples = some out ∧ out.length = N * L ∧
        ∀ i, i < N * L →
          ∃ ch x, samples[i % N]? = some ch ∧ ch[i / N]? = some x ∧
            out[i]? = some x)
    ∧ interleave ([] : List (List α)) = some []
    ∧ interleave [[(1 : Int), 2, 3], [4, 5, 6]] = some [1, 4, 2, 5, 3, 6] := by
  have hNpos : 0 < N := by
    cases samples with
    | nil => exact absurd rfl hne
    | cons a t => simp [← hN]
  refine ⟨⟨(List.range (N * L)).map
      (fun i => (samples.getD (i % N) []).getD (i / N) default),
      interleave_of_uniform samples N L hne hN hL, ?_, ?_⟩, rfl, by decide⟩
  · rw [List.length_map, List.length_range]
  · intro i hi
    have hmod : i % N < samples.length := by
      rw [hN]
      exact Nat.mod_lt i hNpos
    have hch : samples[i % N] ∈ samples := List.getElem_mem hmod
    have hdiv : i / N < (samples[i % N]).length := by
      rw [hL _ hch]
      exact (Nat.div_lt_iff_lt_mul hNpos).mpr (Nat.mul_comm N L ▸ hi)
    refine ⟨samples[i % N], (samples[i % N])[i / N],
      List.getElem?_eq_getElem hmod, List.getElem?_eq_getElem hdiv, ?_⟩
    rw [List.getElem?_map]
    have hr : (List.range (N * L))[i]? = some i := by
      simp [List.getElem?_range, hi]
    rw [hr, Option.map_some']
    have h1 : samples.getD (i % N) [] = samples[i % N] := by
      simp [List.getD_eq_getElem?_getD, List.getElem?_eq_getElem hmod]
    have h2 : (samples[i % N]).getD (i / N) default = (samples[i % N])[i / N] := by
      simp [List.getD_eq_getElem?_getD, List.getElem?_eq_getElem hdiv]
    rw [h1, h2]

/-- C1 witness: the interleaving law instantiated on the concrete 2-channel
frame [[1,2,3],[4,5,6]]. -/
theorem interleave_law_witness :
    (∃ out, interleave [[(1 : Int), 2, 3], [4, 5, 6]] = some out ∧
        out.length = 2 * 3 ∧
        ∀ i, i < 2 * 3 →
          ∃ ch x, [[(1 : Int), 2, 3], [4, 5, 6]][i % 2]? = some ch ∧
            ch[i / 2]? = some x ∧ out[i]? = some x)
    ∧ interleave ([] : List (List Int)) = some []
    ∧ interleave [[(1 : Int), 2, 3], [4, 5, 6]] = some [1, 4, 2, 5, 3, 6] :=
  interleave_law 2 3 [[(1 : Int), 2, 3], [4, 5, 6]] (by decide) (by decide)
    (by decide)

/-- C2: mapping each of the eight canonical sample encodings (every
encoding other than the `Unsupported` sentinel) to the native cpal tag and
back reproduces the original encoding exactly. -/
theorem format_round_trip (s : SampleFormat)
    (h : s ≠ SampleFormat.Unsupported) :
    format_from_cpal (cpal_from_format s) = s := by
  cases s <;> first | rfl | exact absurd rfl h

/-- C2 witness: the round trip at the concrete encoding `Signed16`. -/
theorem format_round_trip_witness :
    SampleFormat.Signed16 ≠ SampleFormat.Unsupported ∧
    format_from_cpal (cpal_from_format .Signed16) = .Signed16 :=
  ⟨by decide, format_round_trip .Signed16 (by decide)⟩

/-- C3: for every `FormatInfo` whose provider tag is not "cpal",
`open_device` returns the `InvalidConfigProvider` error, allocates no ring
buffer and attempts no native stream construction. -/
theorem open_device_rejects_foreign_provider (format : FormatInfo)
    (buildOk : Bool) (h : format.originating_provider ≠ "cpal") :
    open_device format buildOk =
      some ({ ringAllocs := [], buildAttempts := 0 },
        .error .InvalidConfigProvider) := by
  simp [open_device, h]

/-- C3 witness: a format tagged with provider "X" is rejected. -/
theorem open_device_rejects_foreign_provider_witness :
    ({ originating_provider := "X", sample_type := .Signed16,
       sample_rate := 44100, buffer_size := .Unknown,
       channels := .Count 2 } : FormatInfo).originating_provider ≠ "cpal" ∧
    open_device
      { originating_provider := "X", sample_type := .Signed16,
        sample_rate := 44100, buffer_size := .Unknown, channels := .Count 2 }
      true =
      some ({ ringAllocs := [], buildAttempts := 0 },
        .error .InvalidConfigProvider) :=
  ⟨by decide,
    open_device_rejects_foreign_provider _ true (by decide)⟩

/-- C4: for every submitted frame (N non-empty channels of length L), with
the consumer freeing at least one slot whenever a blocking write unblocks
and enough loop iterations available, `submit_frame` succeeds and the
chunks written across the partial writes concatenate to exactly the
interleaved frame, so the total sample count written is N×L and no sample
is dropped. -/
theorem submit_frame_commits_whole_frame {β α : Type} [Inhabited α]
    (conv : β → α) (avail : Nat → Nat) (fuel N L : Nat)
    (frame : List (List β)) (hne : frame ≠ [])
    (hN : frame.length = N) (hL : ∀ ch ∈ frame, ch.length = L)
    (hpos : ∀ k, 1 ≤ avail k) (hfuel : N * L ≤ fuel) :
    ∃ chunks, submit_frame conv avail fuel frame = some chunks ∧
      interleave (innerSamples conv frame) = some chunks.flatten ∧
      chunks.flatten.length = N * L := by
  have hne2 : innerSamples conv frame ≠ [] := by
    cases frame with
    | nil => exact absurd rfl hne
    | cons a t => simp [innerSamples]
  have hN2 : (innerSamples conv frame).length = N := by
    rw [innerSamples_length, hN]
  have hil := interleave_of_uniform (innerSamples conv frame) N L hne2 hN2
    (innerSamples_uniform conv frame L hL)
  have hlen : ((List.range (N * L)).map
      (fun i => ((innerSamples conv frame).getD (i % N) []).getD (i / N)
        default)).length = N * L := by
    rw [List.length_map, List.length_range]
  obtain ⟨chunks, hc, hj⟩ := submitWrites_complete avail hpos fuel 0 _
    (le_trans (le_of_eq hlen) hfuel)
  refine ⟨chunks, ?_, ?_, ?_⟩
  · rw [submit_frame, hil, Option.some_bind, hc]
  · rw [hil, hj]
  · rw [hj, hlen]

/-- C4 witness: submitting the concrete frame [[1,2,3],[4,5,6]] with the
consumer freeing 4 slots per unblocked write commits all 6 samples. -/
theorem submit_frame_commits_whole_frame_witness :
    ∃ chunks, submit_frame (fun x : Int => x) (fun _ => 4) 6
        [[(1 : Int), 2, 3], [4, 5, 6]] = some chunks ∧
      interleave (innerSamples (fun x : Int => x) [[(1 : Int), 2, 3], [4, 5, 6]]) =
        some chunks.flatten ∧
      chunks.flatten.length = 2 * 3 :=
  submit_frame_commits_whole_frame (fun x : Int => x) (fun _ => 4) 6 2 3
    [[(1 : Int), 2, 3], [4, 5, 6]] (by decide) (by decide) (by decide)
    (by intro k; show 1 ≤ 4; decide) (by decide)

/-- C5 counterexample: in the runtime state where a submission is actively
blocked on a full buffer, `needs_input` still returns `true`, refuting the
claim that it returns `false` exactly while a submission is blocked. -/
theorem needs_input_not_false_while_blocked :
    ¬ needs_input { blockedOnFullBuffer := true } = false := by
  decide

/-- C5 amended: `needs_input` returns `true` in every runtime state,
including while a submission is blocked on a full buffer; its body is the
constant `true` and it never inspects the stream's condition. -/
theorem needs_input_always_true (s : StreamRuntime) : needs_input s = true :=
  rfl

/-- C6: every element of the list `get_supported_formats` returns carries a
sample encoding other than the `Unsupported` sentinel, and each element
stems from a native configuration whose encoding is neither `I64` nor
`U64` (the wider-than-32-bit integer configurations are filtered out). -/
theorem get_supported_formats_no_unsupported (configs : List NativeConfig)
    (f : SupportedFormat) (hf : f ∈ get_supported_formats configs) :
    f.sample_type ≠ SampleFormat.Unsupported ∧
    ∃ c ∈ configs, c.sample_format ≠ CpalSampleFormat.I64 ∧
      c.sample_format ≠ CpalSampleFormat.U64 ∧ f = supportedFromConfig c := by
  obtain ⟨c, hcmem, rfl⟩ := List.mem_map.mp hf
  obtain ⟨hcin, hpred⟩ := List.mem_filter.mp hcmem
  have hp : c.sample_format ≠ CpalSampleFormat.I64 ∧
      c.sample_format ≠ CpalSampleFormat.U64 := by
    simpa using hpred
  refine ⟨?_, c, hcin, hp.1, hp.2, rfl⟩
  cases h : c.sample_format <;>
    simp_all [supportedFromConfig, format_from_cpal]

/-- C6 witness: a two-element native enumeration containing an `I64`
config and an `I16` config yields one supported format, with encoding
`Signed16`, stemming from the `I16` config. -/
theorem get_supported_formats_no_unsupported_witness :
    supportedFromConfig
        { sample_format := .I16, min_sample_rate := 44100,
          max_sample_rate := 48000, buffer_range := some (64, 4096),
          channels := 2 } ∈
      get_supported_formats
        [{ sample_format := .I64, min_sample_rate := 1, max_sample_rate := 2,
           buffer_range := none, channels := 2 },
         { sample_format := .I16, min_sample_rate := 44100,
           max_sample_rate := 48000, buffer_range := some (64, 4096),
           channels := 2 }] ∧
    (supportedFromConfig
        { sample_format := .I16, min_sample_rate := 44100,
          max_sample_rate := 48000, buffer_range := some (64, 4096),
          channels := 2 }).sample_type ≠ SampleFormat.Unsupported :=
  ⟨by decide,
    (get_supported_formats_no_unsupported
      [{ sample_format := .I64, min_sample_rate := 1, max_sample_rate := 2,
         buffer_range := none, channels := 2 },
       { sample_format := .I16, min_sample_rate := 44100,
         max_sample_rate := 48000, buffer_range := some (64, 4096),
         channels := 2 }]
      (supportedFromConfig
        { sample_format := .I16, min_sample_rate := 44100,
          max_sample_rate := 48000, buffer_range := some (64, 4096),
          channels := 2 })
      (by decide)).1⟩

/-- C7: for every stream opened with provider tag "cpal", sample rate R,
channel count C and a representable sample encoding, exactly one ring
buffer is allocated at open time, with capacity ((200 × R) / 1000) × C in
integer arithmetic, and a successfully built stream records that same
capacity. -/
theorem ring_buffer_capacity (format : FormatInfo) (buildOk : Bool) (C : Nat)
    (hp : format.originating_provider = "cpal")
    (hc : format.channels = ChannelSpec.Count C)
    (hs : format.sample_type ≠ SampleFormat.Unsupported) :
    ∃ res, open_device format buildOk =
        some ({ ringAllocs := [((200 * format.sample_rate) / 1000) * C],
                buildAttempts := 1 }, res) ∧
      ∀ s, res = .ok s →
        s.ringCapacity = ((200 * format.sample_rate) / 1000) * C := by
  refine ⟨_, open_device_trace format buildOk C hp hc hs, ?_⟩
  intro s hsres
  cases buildOk with
  | false => simp at hsres
  | true =>
    simp only [if_pos] at hsres
    cases hsres
    rfl

/-- C7 witness: opening a 2-channel stream at 44100 Hz allocates a ring
buffer of ((200 × 44100) / 1000) × 2 = 17640 samples. -/
theorem ring_buffer_capacity_witness :
    ∃ res, open_device
        { originating_provider := "cpal", sample_type := .Signed16,
          sample_rate := 44100, buffer_size := .Unknown,
          channels := .Count 2 } true =
        some ({ ringAllocs := [((200 * 44100) / 1000) * 2],
                buildAttempts := 1 }, res) ∧
      ∀ s, res = .ok s → s.ringCapacity = ((200 * 44100) / 1000) * 2 :=
  ring_buffer_capacity
    { originating_provider := "cpal", sample_type := .Signed16,
      sample_rate := 44100, buffer_size := .Unknown, channels := .Count 2 }
    true 2 (by decide) (by decide) (by decide)

/-- C8: `close_stream` always returns success and leaves the stream state
unchanged, so calling it again on the result succeeds as well: closing is
idempotent and never fails. -/
theorem close_stream_always_ok (s : StreamModel) :
    close_stream s = (Except.ok (), s) ∧
    close_stream (close_stream s).2 = (Except.ok (), s) :=
  ⟨rfl, rfl⟩

/-- C9: `get_uid` returns exactly what `get_name` returns on every device,
and whenever `get_name` succeeds with a name, the comparison
`get_device_by_uid` applies matches the device against that very string. -/
theorem uid_equals_name (d : CpalDeviceM) (s : String)
    (h : get_name d = .ok s) :
    get_uid d = get_name d ∧ uidMatches d s = true := by
  cases hd : d.name with
  | none => simp [get_name, hd] at h
  | some t =>
    have ht : t = s := by simpa [get_name, hd] using h
    subst ht
    exact ⟨rfl, by simp [uidMatches, hd]⟩

/-- C9 witness: a device named "Speakers" has UID "Speakers" and matches
the UID lookup for "Speakers". -/
theorem uid_equals_name_witness :
    get_uid { name := some "Speakers" } = get_name { name := some "Speakers" } ∧
    uidMatches { name := some "Speakers" } "Speakers" = true :=
  uid_equals_name { name := some "Speakers" } "Speakers" rfl

/-- C10: for every `FormatInfo` tagged "cpal", the native stream config is
exactly { 2 channels, the format's sample rate, default buffer size },
whatever the format's channel specification and buffer-size policy; two
"cpal" formats with the same sample rate yield the same native config; and
the ring buffer allocated at open time uses the format's own channel
count C, with capacity ((200 × R) / 1000) × C. -/
theorem native_config_fixed_stereo (format : FormatInfo) (C : Nat)
    (buildOk : Bool) (hp : format.originating_provider = "cpal") :
    cpal_config_from_info format =
      .ok { channels := 2, sample_rate := format.sample_rate,
            buffer_size := .Default } ∧
    (∀ g : FormatInfo, g.originating_provider = "cpal" →
      g.sample_rate = format.sample_rate →
      cpal_config_from_info g = cpal_config_from_info format) ∧
    (format.channels = ChannelSpec.Count C →
      format.sample_type ≠ SampleFormat.Unsupported →
      ∃ res, open_device format buildOk =
        some ({ ringAllocs := [((200 * format.sample_rate) / 1000) * C],
                buildAttempts := 1 }, res)) := by
  refine ⟨by simp [cpal_config_from_info, hp], ?_, ?_⟩
  · intro g hg hrate
    simp [cpal_config_from_info, hp, hg, hrate]
  · intro hc hs
    exact ⟨_, open_device_trace format buildOk C hp hc hs⟩

/-- C10 witness: a "cpal" format with 6 channels and a fixed buffer-size
policy still yields the stereo default-buffer native config, and its ring
buffer uses the 6-channel count. -/
theorem native_config_fixed_stereo_witness :
    cpal_config_from_info
        { originating_provider := "cpal", sample_type := .Float32,
          sample_rate := 48000, buffer_size := .Fixed 512,
          channels := .Count 6 } =
      .ok { channels := 2, sample_rate := 48000, buffer_size := .Default } ∧
    (∃ res, open_device
        { originating_provider := "cpal", sample_type := .Float32,
          sample_rate := 48000, buffer_size := .Fixed 512,
          channels := .Count 6 } true =
        some ({ ringAllocs := [((200 * 48000) / 1000) * 6],
                buildAttempts := 1 }, res)) :=
  ⟨(native_config_fixed_stereo
      { originating_provider := "cpal", sample_type := .Float32,
        sample_rate := 48000, buffer_size := .Fixed 512,
        channels := .Count 6 } 6 true (by decide)).1,
    (native_config_fixed_stereo
      { originating_provider := "cpal", sample_type := .Float32,
        sample_rate := 48000, buffer_size := .Fixed 512,
        channels := .Count 6 } 6 true (by decide)).2.2 (by decide) (by decide)⟩

end Muzak
